import Mathlib

/-!
Shallow embedding of the multiplayer world-viewer client (`game.js`).

Conventions of the embedding:
* JavaScript numbers are modelled as rationals (`ℚ`); all arithmetic the
  client performs (subtraction, division by 2, `Math.min`/`Math.max`,
  `Math.floor`) is exact on the values that occur, so `ℚ` is faithful.
* A JavaScript object used as a string-keyed dictionary is modelled as an
  association list (`JsMap`), which also captures the insertion-order
  iteration of `Object.keys` / `Object.values` and the in-place update
  semantics of property assignment.
* `console.log` / `console.error` output is external observable output, not
  client state; where a claim is about logging, the handler is modelled to
  additionally return a flag recording that the log line was emitted.
* Messages sent on the websocket are recorded in the `sent` field of the
  client state (oldest first); this is the observation channel for the
  outbound command stream.
-/

/-- A sprite frame, modelled as rows of pixels. -/
abbrev Frame := List (List Nat)

/-- Horizontal mirror of a frame, the effect of the temp-canvas
`scale(-1, 1)` blit in `renderAvatar`. -/
def hflip (f : Frame) : Frame := f.map List.reverse

/-- A JavaScript object used as a string-keyed dictionary, in insertion
order. -/
abbrev JsMap (α : Type) := List (String × α)

/-- Property read `m[k]`: `none` models `undefined`. -/
def jsGet {α : Type} : JsMap α → String → Option α
  | [], _ => none
  | (k', v') :: rest, k => if k' = k then some v' else jsGet rest k

/-- Property write `m[k] = v`: updates the entry in place when the key is
present, otherwise appends (JavaScript objects keep first-insertion key
order). -/
def jsSet {α : Type} : JsMap α → String → α → JsMap α
  | [], k, v => [(k, v)]
  | (k', v') :: rest, k, v =>
    if k' = k then (k, v) :: rest else (k', v') :: jsSet rest k v

/-- Property removal `delete m[k]`. -/
def jsDelete {α : Type} (m : JsMap α) (k : String) : JsMap α :=
  m.filter (fun e => e.1 ≠ k)

/-- `Object.assign(target, source)`: copies every own property of `source`
onto `target`, in `source`'s key order. -/
def jsAssign {α : Type} (target source : JsMap α) : JsMap α :=
  source.foldl (fun acc e => jsSet acc e.1 e.2) target

/-- A player object as stored in `this.players` and carried by protocol
messages.  Fields that a message object may omit are `Option`s. -/
structure PlayerObj where
  id : String
  username : Option String
  x : ℚ
  y : ℚ
  facing : Option String
  avatar : String
  animationFrame : Option Nat
  deriving Repr, DecidableEq

/-- An avatar definition as stored in `this.avatars`: a name and, per
direction name, an ordered frame sequence. -/
structure AvatarDef where
  name : String
  frames : JsMap (List Frame)
  deriving Repr, DecidableEq

/-- WebSocket `readyState` values. -/
inductive ReadyState where
  | connecting
  | opened
  | closing
  | closed
  deriving Repr, DecidableEq

/-- Outbound wire messages sent by the client. -/
inductive OutMessage where
  | move (direction : String)
  | stop
  deriving Repr, DecidableEq

/-- Parsed inbound server messages, by `message.action`. -/
inductive ServerMessage where
  | joinGame (success : Bool) (playerId : Option String)
      (players : JsMap PlayerObj) (avatars : JsMap AvatarDef)
      (error : Option String)
  | playerJoined (player : PlayerObj) (avatar : AvatarDef)
  | playersMoved (players : JsMap PlayerObj)
  | playerLeft (playerId : String)
  | unknownAction (action : String)

instance : DecidableEq (JsMap (List Frame)) := inferInstance

instance : DecidableEq (JsMap (JsMap (List Frame))) := inferInstance

/-- The mutable state of a `GameClient` instance (constructor lines of
`game.js`), plus the `sent` observation channel recording
`websocket.send` calls. -/
structure ClientState where
  worldImage : Bool
  worldWidth : ℚ
  worldHeight : ℚ
  myPlayerId : Option String
  players : JsMap PlayerObj
  avatars : JsMap AvatarDef
  websocket : Option ReadyState
  cameraX : ℚ
  cameraY : ℚ
  avatarSize : ℚ
  loadedAvatarImages : JsMap (JsMap (List Frame))
  pressedKeys : JsMap Bool
  isMoving : Bool
  movementInterval : Bool
  isDragging : Bool
  lastMouseX : ℚ
  lastMouseY : ℚ
  canvasWidth : ℚ
  canvasHeight : ℚ
  sent : List OutMessage
  deriving Repr, DecidableEq

/-- The client state as event handlers can first observe it: the
constructor's `init` has synchronously assigned
`this.worldImage = new Image()` (a truthy object even before its data
loads), so `worldImage` — non-nullity of the image — is already true; the
stores are empty and the camera is at the origin.  `websocket := none`
models the null field of a client whose `new WebSocket` call threw (the
constructor's catch), the one way an event can run with a null socket;
concrete states override it where a connection exists.  The canvas is
sized to the window (`w × h`). -/
def initialClient (w h : ℚ) : ClientState where
  worldImage := true
  worldWidth := 2048
  worldHeight := 2048
  myPlayerId := none
  players := []
  avatars := []
  websocket := none
  cameraX := 0
  cameraY := 0
  avatarSize := 32
  loadedAvatarImages := []
  pressedKeys := []
  isMoving := false
  movementInterval := false
  isDragging := false
  lastMouseX := 0
  lastMouseY := 0
  canvasWidth := w
  canvasHeight := h
  sent := []

/-- `drawWorld`: the `worldImage` field models the non-nullity of
`this.worldImage`, and the guard is the source's nullity test
`if (!this.worldImage) return`.  `loadWorldMap` assigns
`this.worldImage = new Image()` synchronously during `init`, before any
event listener is registered, so the guard passes in every state an event
handler can observe (whether or not the image data has finished loading)
and the camera is clamped to the map boundaries.  The actual blit of the
world image and the avatar pass only touch the canvas, not client state. -/
def drawWorld (s : ClientState) : ClientState :=
  if s.worldImage then
    { s with
      cameraX := max 0 (min s.cameraX (s.worldWidth - s.canvasWidth)),
      cameraY := max 0 (min s.cameraY (s.worldHeight - s.canvasHeight)) }
  else s

/-- `centerCameraOnMyAvatar`: when a local player id is set (a nonempty
string, JavaScript truthiness) and present in the store, put the camera so
that the player is at the viewport center. -/
def centerCameraOnMyAvatar (s : ClientState) : ClientState :=
  match s.myPlayerId with
  | none => s
  | some pid =>
    if pid = "" then s
    else
      match jsGet s.players pid with
      | none => s
      | some myPlayer =>
        { s with
          cameraX := myPlayer.x - s.canvasWidth / 2,
          cameraY := myPlayer.y - s.canvasHeight / 2 }

/-- `worldToScreen(worldX, worldY)`, with the camera passed explicitly. -/
def worldToScreen (cameraX cameraY worldX worldY : ℚ) : ℚ × ℚ :=
  (worldX - cameraX, worldY - cameraY)

/-- Screen-to-world mapping of the canvas click handler:
`Math.floor(x + cameraX)` per axis. -/
def clickToWorld (cameraX cameraY x y : ℚ) : ℚ × ℚ :=
  ((⌊x + cameraX⌋ : ℤ), (⌊y + cameraY⌋ : ℤ))

/-- The canvas `mousedown` handler: start a drag. -/
def handleMouseDown (s : ClientState) (clientX clientY : ℚ) : ClientState :=
  { s with isDragging := true, lastMouseX := clientX, lastMouseY := clientY }

/-- The canvas `mousemove` handler: while dragging, move the camera
opposite to the pointer delta and redraw. -/
def handleMouseMove (s : ClientState) (clientX clientY : ℚ) : ClientState :=
  if s.isDragging then
    drawWorld
      { s with
        cameraX := s.cameraX - (clientX - s.lastMouseX),
        cameraY := s.cameraY - (clientY - s.lastMouseY),
        lastMouseX := clientX,
        lastMouseY := clientY }
  else s

/-- The canvas `mouseup` handler: stop dragging. -/
def handleMouseUp (s : ClientState) : ClientState :=
  { s with isDragging := false }

/-- A sprite draw emitted by `renderAvatar`: the (possibly mirrored) image
placed with its top-left corner at `(x, y)` at `avatarSize × avatarSize`. -/
structure DrawnSprite where
  image : Frame
  x : ℚ
  y : ℚ
  flipped : Bool
  deriving Repr, DecidableEq

/-- The frame-sequence resolution block of `renderAvatar`: a facing of
`left`/`west` selects the east sequence with the flip flag set; any other
facing indexes the per-direction map directly (an absent facing indexes
like an absent key and yields no sequence). -/
def resolveFrames (imgs : JsMap (List Frame)) (facing : Option String) :
    Option (List Frame) × Bool :=
  if facing = some "left" ∨ facing = some "west" then (jsGet imgs "east", true)
  else
    (match facing with
     | some f => jsGet imgs f
     | none => none, false)

/-- `renderAvatar`: `none` models the early `return`s (avatar not in the
stores, no frame sequence for the facing, frame index out of range); `some`
carries the sprite draw that reaches the canvas.  The username label only
touches the canvas and is not modelled. -/
def renderAvatar (avatars : JsMap AvatarDef)
    (loaded : JsMap (JsMap (List Frame))) (avatarSize : ℚ)
    (player : PlayerObj) (screenX screenY : ℚ) : Option DrawnSprite :=
  match jsGet avatars player.avatar, jsGet loaded player.avatar with
  | some _, some imgs =>
    let frameIndex := player.animationFrame.getD 0
    match (resolveFrames imgs player.facing).1 with
    | none => none
    | some frames =>
      match frames.get? frameIndex with
      | none => none
      | some avatarImg =>
        some
          { image :=
              if (resolveFrames imgs player.facing).2 then hflip avatarImg
              else avatarImg,
            x := screenX - avatarSize / 2,
            y := screenY - avatarSize / 2,
            flipped := (resolveFrames imgs player.facing).2 }
  | _, _ => none

/-- The per-avatar direction loading loop of `loadAvatarImages`: for each
of the three stored directions present in the definition, the frame data
becomes the loaded image list. -/
def loadDirections (avatar : AvatarDef) : JsMap (List Frame) :=
  ["north", "south", "east"].foldl
    (fun acc direction =>
      match jsGet avatar.frames direction with
      | some frameList => jsSet acc direction frameList
      | none => acc) []

/-- `loadAvatarImages`: walk the avatar store in insertion order and load
images for every avatar name not already loaded (idempotent by the
presence check). -/
def loadAvatarImages (s : ClientState) : ClientState :=
  { s with
    loadedAvatarImages :=
      s.avatars.foldl
        (fun acc e =>
          match jsGet acc e.2.name with
          | some _ => acc
          | none => jsSet acc e.2.name (loadDirections e.2))
        s.loadedAvatarImages }

/-- `handleServerMessage`, by `message.action`. -/
def handleServerMessage (s : ClientState) (m : ServerMessage) : ClientState :=
  match m with
  | ServerMessage.joinGame success playerId players avatars _error =>
    if success then
      drawWorld (centerCameraOnMyAvatar (loadAvatarImages
        { s with myPlayerId := playerId, players := players,
                 avatars := avatars }))
    else s
  | ServerMessage.playerJoined player avatar =>
    drawWorld (loadAvatarImages
      { s with players := jsSet s.players player.id player,
               avatars := jsSet s.avatars avatar.name avatar })
  | ServerMessage.playersMoved players =>
    drawWorld (centerCameraOnMyAvatar
      { s with players := jsAssign s.players players })
  | ServerMessage.playerLeft playerId =>
    drawWorld { s with players := jsDelete s.players playerId }
  | ServerMessage.unknownAction _ => s

/-- The websocket `onmessage` handler.  Its input is the outcome of
`JSON.parse` on the raw event data (`none` when parsing throws, in which
case the `catch` logs the parse error and nothing else runs).  The returned
flag records whether that error line was logged. -/
def onSocketMessage (s : ClientState) (parsed : Option ServerMessage) :
    ClientState × Bool :=
  match parsed with
  | some m => (handleServerMessage s m, false)
  | none => (s, true)

/-- The key-to-direction table shared by `handleKeyDown`, `handleKeyUp`
and the movement-interval callback. -/
def keyMap (code : String) : Option String :=
  if code = "ArrowUp" then some "up"
  else if code = "ArrowDown" then some "down"
  else if code = "ArrowLeft" then some "left"
  else if code = "ArrowRight" then some "right"
  else if code = "KeyW" then some "up"
  else if code = "KeyS" then some "down"
  else if code = "KeyA" then some "left"
  else if code = "KeyD" then some "right"
  else none

/-- `sendMoveCommand`: when the websocket is missing or not `OPEN`, log
(external output) and return without sending; otherwise send one move
message. -/
def sendMoveCommand (s : ClientState) (direction : String) : ClientState :=
  match s.websocket with
  | some ReadyState.opened =>
    { s with sent := s.sent ++ [OutMessage.move direction] }
  | _ => s

/-- `sendStopCommand`: same readiness guard as `sendMoveCommand`; sends
one stop message when open. -/
def sendStopCommand (s : ClientState) : ClientState :=
  match s.websocket with
  | some ReadyState.opened => { s with sent := s.sent ++ [OutMessage.stop] }
  | _ => s

/-- `startContinuousMovement`: register the repeating movement timer
unless it is already running. -/
def startContinuousMovement (s : ClientState) : ClientState :=
  if s.movementInterval then s else { s with movementInterval := true }

/-- `stopContinuousMovement`: clear the repeating movement timer if it is
running. -/
def stopContinuousMovement (s : ClientState) : ClientState :=
  if s.movementInterval then { s with movementInterval := false } else s

/-- `checkMovementState`: when `isMoving` is set and no movement keys
remain pressed, clear `isMoving`, stop the timer and send one stop
command. -/
def checkMovementState (s : ClientState) : ClientState :=
  if s.isMoving ∧ ¬ s.pressedKeys.length > 0 then
    sendStopCommand (stopContinuousMovement { s with isMoving := false })
  else s

/-- The `keydown` handler: `KeyC` recenters and redraws; a recognized
movement key that is not already held is added to the pressed-key set,
one move command is sent immediately and the repeating timer is started. -/
def handleKeyDown (s : ClientState) (code : String) : ClientState :=
  if code = "KeyC" then drawWorld (centerCameraOnMyAvatar s)
  else
    match keyMap code with
    | none => s
    | some direction =>
      if (jsGet s.pressedKeys code).getD false then s
      else
        startContinuousMovement
          (sendMoveCommand { s with pressedKeys := jsSet s.pressedKeys code true }
            direction)

/-- The `keyup` handler: a recognized movement key that is currently held
is removed from the pressed-key set, then the movement state machine is
re-checked. -/
def handleKeyUp (s : ClientState) (code : String) : ClientState :=
  match keyMap code with
  | none => s
  | some _ =>
    if (jsGet s.pressedKeys code).getD false then
      checkMovementState { s with pressedKeys := jsDelete s.pressedKeys code }
    else s

/-- One tick of the repeating movement timer: if any keys are pressed,
re-send a move command for the direction of the first key in the set's
insertion order. -/
def movementTick (s : ClientState) : ClientState :=
  match s.pressedKeys with
  | [] => s
  | (code, _) :: _ =>
    match keyMap code with
    | some direction => sendMoveCommand s direction
    | none => s

/-! ### Basic facts about the dictionary model -/

theorem jsGet_jsSet {α : Type} (m : JsMap α) (k j : String) (v : α) :
    jsGet (jsSet m k v) j = if j = k then some v else jsGet m j := by
  induction m with
  | nil =>
    by_cases h : k = j
    · subst h; simp [jsGet, jsSet]
    · simp [jsGet, jsSet, h, Ne.symm h]
  | cons e rest ih =>
    obtain ⟨k', v'⟩ := e
    by_cases hk : k' = k
    · subst hk
      by_cases hj : k' = j
      · subst hj; simp [jsGet, jsSet]
      · simp [jsGet, jsSet, hj, Ne.symm hj]
    · by_cases hj : k' = j
      · subst hj
        simp [jsGet, jsSet, hk]
      · simp [jsGet, jsSet, hk, hj, ih]

theorem jsAssign_cons {α : Type} (t : JsMap α) (e : String × α)
    (rest : JsMap α) : jsAssign t (e :: rest) = jsAssign (jsSet t e.1 e.2) rest :=
  rfl

theorem jsGet_jsAssign_of_none {α : Type} (src : JsMap α) (t : JsMap α)
    (id : String) (h : jsGet src id = none) :
    jsGet (jsAssign t src) id = jsGet t id := by
  induction src generalizing t with
  | nil => rfl
  | cons e rest ih =>
    obtain ⟨k, v⟩ := e
    rw [jsGet] at h
    by_cases hk : k = id
    · simp [hk] at h
    · rw [if_neg hk] at h
      rw [jsAssign_cons, ih _ h, jsGet_jsSet, if_neg (fun he => hk he.symm)]

theorem jsGet_eq_none_of_not_mem {α : Type} (m : JsMap α) (id : String)
    (h : id ∉ m.map Prod.fst) : jsGet m id = none := by
  induction m with
  | nil => rfl
  | cons e rest ih =>
    obtain ⟨k, v⟩ := e
    simp only [List.map_cons, List.mem_cons] at h
    push_neg at h
    rw [jsGet, if_neg (fun hk => h.1 hk.symm)]
    exact ih h.2

theorem jsGet_jsAssign_of_some {α : Type} (src : JsMap α) (t : JsMap α)
    (id : String) (p : α) (h : jsGet src id = some p)
    (hnd : (src.map Prod.fst).Nodup) : jsGet (jsAssign t src) id = some p := by
  induction src generalizing t with
  | nil => simp [jsGet] at h
  | cons e rest ih =>
    obtain ⟨k, v⟩ := e
    simp only [List.map_cons, List.nodup_cons] at hnd
    rw [jsGet] at h
    by_cases hk : k = id
    · rw [if_pos hk] at h
      obtain rfl : v = p := Option.some.injEq .. ▸ h
      subst hk
      have hrest : jsGet rest k = none :=
        jsGet_eq_none_of_not_mem rest k hnd.1
      rw [jsAssign_cons, jsGet_jsAssign_of_none rest _ k hrest,
        jsGet_jsSet, if_pos rfl]
    · rw [if_neg hk] at h
      rw [jsAssign_cons]
      exact ih _ h hnd.2

/-! ### Structural facts about the state operations -/

theorem centerCameraOnMyAvatar_eq (s : ClientState) :
    centerCameraOnMyAvatar s = s ∨
    ∃ cx cy, centerCameraOnMyAvatar s = { s with cameraX := cx, cameraY := cy } := by
  unfold centerCameraOnMyAvatar
  split
  · exact Or.inl rfl
  · split
    · exact Or.inl rfl
    · split
      · exact Or.inl rfl
      · exact Or.inr ⟨_, _, rfl⟩

theorem centerCameraOnMyAvatar_players (s : ClientState) :
    (centerCameraOnMyAvatar s).players = s.players := by
  rcases centerCameraOnMyAvatar_eq s with h | ⟨cx, cy, h⟩ <;> rw [h]

theorem centerCameraOnMyAvatar_worldImage (s : ClientState) :
    (centerCameraOnMyAvatar s).worldImage = s.worldImage := by
  rcases centerCameraOnMyAvatar_eq s with h | ⟨cx, cy, h⟩ <;> rw [h]

theorem drawWorld_players (s : ClientState) :
    (drawWorld s).players = s.players := by
  unfold drawWorld; split <;> rfl

theorem loadAvatarImages_players (s : ClientState) :
    (loadAvatarImages s).players = s.players := rfl

theorem loadAvatarImages_worldImage (s : ClientState) :
    (loadAvatarImages s).worldImage = s.worldImage := rfl

/-- The camera-bound invariant of the specification, per axis:
`0 ≤ camera ≤ max 0 (worldSize − viewportSize)`. -/
def cameraInBounds (s : ClientState) : Prop :=
  0 ≤ s.cameraX ∧ s.cameraX ≤ max 0 (s.worldWidth - s.canvasWidth) ∧
  0 ≤ s.cameraY ∧ s.cameraY ≤ max 0 (s.worldHeight - s.canvasHeight)

theorem cameraInBounds_drawWorld (s : ClientState)
    (h : s.worldImage = true) : cameraInBounds (drawWorld s) := by
  unfold drawWorld cameraInBounds
  rw [h]
  refine ⟨le_max_left _ _, ?_, le_max_left _ _, ?_⟩ <;>
    exact max_le_max le_rfl (min_le_right _ _)

/-! ### Claim theorems -/

/-- C7: an inbound message whose payload fails to parse leaves the world
state store (players, avatars, local player id) unchanged — indeed the
whole client state — logs exactly the one parse warning of the `catch`
block, and lets no exception propagate (the handler is a total
function). -/
theorem c7_parse_failure_is_dropped (s : ClientState) :
    (onSocketMessage s none).1.players = s.players ∧
    (onSocketMessage s none).1.avatars = s.avatars ∧
    (onSocketMessage s none).1.myPlayerId = s.myPlayerId ∧
    (onSocketMessage s none).1 = s ∧
    (onSocketMessage s none).2 = true :=
  ⟨rfl, rfl, rfl, rfl, rfl⟩

/-- C8: when the websocket is missing or not open for writing, both
`sendMoveCommand` and `sendStopCommand` return with the client state
unchanged: nothing is sent and nothing is queued. -/
theorem c8_send_noop_when_not_open (s : ClientState) (direction : String)
    (h : s.websocket ≠ some ReadyState.opened) :
    sendMoveCommand s direction = s ∧ sendStopCommand s = s := by
  constructor
  · unfold sendMoveCommand
    split
    · rename_i heq; exact absurd heq h
    · rfl
  · unfold sendStopCommand
    split
    · rename_i heq; exact absurd heq h
    · rfl

theorem c8_witness :
    sendMoveCommand (initialClient 800 600) "up" = initialClient 800 600 ∧
    sendStopCommand (initialClient 800 600) = initialClient 800 600 :=
  c8_send_noop_when_not_open (initialClient 800 600) "up" (by decide)

/-- C9: a players-moved update leaves the stored entry of every player id
absent from the update untouched. -/
theorem c9_players_moved_preserves_absent (s : ClientState)
    (upd : JsMap PlayerObj) (id : String) (h : jsGet upd id = none) :
    jsGet (handleServerMessage s (ServerMessage.playersMoved upd)).players id
      = jsGet s.players id := by
  simp only [handleServerMessage, drawWorld_players,
    centerCameraOnMyAvatar_players]
  exact jsGet_jsAssign_of_none upd s.players id h

def c9Stored : PlayerObj :=
  { id := "p2", username := some "bob", x := 3, y := 4,
    facing := some "north", avatar := "owl", animationFrame := some 2 }

def c9Update : PlayerObj :=
  { id := "p1", username := some "alice", x := 5, y := 6,
    facing := some "south", avatar := "bear", animationFrame := some 1 }

def c9State : ClientState :=
  { initialClient 800 600 with players := [("p2", c9Stored)] }

theorem c9_witness :
    jsGet (handleServerMessage c9State
        (ServerMessage.playersMoved [("p1", c9Update)])).players "p2"
      = jsGet c9State.players "p2" :=
  c9_players_moved_preserves_absent c9State [("p1", c9Update)] "p2" (by decide)

def c2Stored : PlayerObj :=
  { id := "p1", username := some "alice", x := 1, y := 2,
    facing := some "south", avatar := "bear", animationFrame := some 1 }

def c2Update : PlayerObj :=
  { id := "p1", username := none, x := 5, y := 2, facing := some "south",
    avatar := "bear", animationFrame := some 1 }

def c2State : ClientState :=
  { initialClient 800 600 with players := [("p1", c2Stored)] }

/-- C2 counterexample: the stored player `p1` has `username` set, the
players-moved update for `p1` does not carry that field, yet after the
update the stored `username` is gone — `Object.assign` on the players map
replaces the per-id entry wholesale instead of merging fields. -/
theorem c2_counterexample :
    (jsGet c2State.players "p1").map PlayerObj.username
        = some (some "alice") ∧
    (jsGet (handleServerMessage c2State
        (ServerMessage.playersMoved [("p1", c2Update)])).players "p1").map
      PlayerObj.username = some none := by
  decide

/-- C2 amended: for every player id present in a players-moved update, the
stored entry afterwards is exactly the update's object, wholesale (the
shallow merge is at the level of the players map, not of player fields);
ids absent from the update are untouched. -/
theorem c2_players_moved_replaces_entry (s : ClientState)
    (upd : JsMap PlayerObj) (id : String) (p : PlayerObj)
    (h : jsGet upd id = some p) (hnd : (upd.map Prod.fst).Nodup) :
    jsGet (handleServerMessage s (ServerMessage.playersMoved upd)).players id
      = some p := by
  simp only [handleServerMessage, drawWorld_players,
    centerCameraOnMyAvatar_players]
  exact jsGet_jsAssign_of_some upd s.players id p h hnd

theorem c2_witness :
    jsGet (handleServerMessage c2State
        (ServerMessage.playersMoved [("p1", c2Update)])).players "p1"
      = some c2Update :=
  c2_players_moved_replaces_entry c2State [("p1", c2Update)] "p1" c2Update
    (by decide) (by decide)

def c1Start : ClientState :=
  { initialClient 800 600 with
    websocket := some ReadyState.opened,
    worldImage := true }

/-- C1: evaluating the code on the claim's run — from an idle, connected
client, press `KeyW` once and release it, emptying the pressed-key set.
The code sends the single move command but never a stop command, and the
repeating movement timer is still registered afterwards: `isMoving` is
never set to `true` anywhere, so the stop branch of `checkMovementState`
is unreachable. -/
theorem c1_single_key_run_sends_no_stop :
    (handleKeyUp (handleKeyDown c1Start "KeyW") "KeyW").sent
        = [OutMessage.move "up"] ∧
    (handleKeyUp (handleKeyDown c1Start "KeyW") "KeyW").movementInterval
        = true ∧
    (handleKeyUp (handleKeyDown c1Start "KeyW") "KeyW").isMoving = false ∧
    (handleKeyUp (handleKeyDown c1Start "KeyW") "KeyW").pressedKeys = [] := by
  decide

def c3Dragging : ClientState :=
  { initialClient 800 600 with isDragging := true }

/-- C3: every camera position produced by drag-panning or by a centering
path (the recenter key, a players-moved update, a successful join)
satisfies `0 ≤ camera.x ≤ max 0 (worldWidth − viewportWidth)` and likewise
for y: each of these handlers ends in `drawWorld`, which clamps.  The
`worldImage` hypothesis is the source's guard condition (non-nullity of
`this.worldImage`); `loadWorldMap` assigns the `Image` object synchronously
during `init`, before any listener exists, so it holds in every state an
event handler can observe. -/
theorem c3_pan_and_center_in_bounds (s : ClientState) (cx cy : ℚ)
    (upd : JsMap PlayerObj) (pid : Option String) (ps : JsMap PlayerObj)
    (avs : JsMap AvatarDef) (err : Option String)
    (himg : s.worldImage = true) :
    (s.isDragging = true → cameraInBounds (handleMouseMove s cx cy)) ∧
    cameraInBounds (handleKeyDown s "KeyC") ∧
    cameraInBounds (handleServerMessage s (ServerMessage.playersMoved upd)) ∧
    cameraInBounds (handleServerMessage s
      (ServerMessage.joinGame true pid ps avs err)) := by
  refine ⟨?_, ?_, ?_, ?_⟩
  · intro hdrag
    unfold handleMouseMove
    rw [hdrag]
    rw [if_pos rfl]
    exact cameraInBounds_drawWorld _ himg
  · unfold handleKeyDown
    rw [if_pos rfl]
    exact cameraInBounds_drawWorld _
      ((centerCameraOnMyAvatar_worldImage s).trans himg)
  · simp only [handleServerMessage]
    exact cameraInBounds_drawWorld _
      ((centerCameraOnMyAvatar_worldImage _).trans himg)
  · simp only [handleServerMessage, if_pos rfl]
    exact cameraInBounds_drawWorld _
      ((centerCameraOnMyAvatar_worldImage _).trans himg)

theorem c3_in_bounds_witness :
    cameraInBounds (handleMouseMove c3Dragging 10 0) ∧
    cameraInBounds (handleKeyDown c3Dragging "KeyC") :=
  ⟨(c3_pan_and_center_in_bounds c3Dragging 10 0 [] none [] [] none
      rfl).1 rfl,
   (c3_pan_and_center_in_bounds c3Dragging 10 0 [] none [] [] none
      rfl).2.1⟩

/-- C4 counterexample: with the camera at the origin, a click at the
fractional screen coordinate `x = 1/2` maps to world `0` (the handler
floors), and mapping that world point back to the screen yields `0`, not
the original `1/2`; likewise world `1/2` does not survive the round trip.
The two mappings are therefore not exact inverses on all coordinates. -/
theorem c4_counterexample :
    worldToScreen 0 0 (clickToWorld 0 0 (1/2) 0).1 (clickToWorld 0 0 (1/2) 0).2
        ≠ ((1/2 : ℚ), (0 : ℚ)) ∧
    clickToWorld 0 0 (worldToScreen 0 0 (1/2) 0).1 (worldToScreen 0 0 (1/2) 0).2
        ≠ ((1/2 : ℚ), (0 : ℚ)) := by
  constructor <;>
    norm_num [worldToScreen, clickToWorld, Prod.ext_iff]

/-- C4 amended: on integer camera values and integer coordinates the click
handler's screen-to-world mapping and `worldToScreen` are exact inverses
in both directions; in general the click handler floors, so only the
integer part of a coordinate survives the round trip. -/
theorem c4_inverse_on_integers (cx cy wx wy sx sy : ℤ) :
    clickToWorld cx cy (worldToScreen cx cy wx wy).1
        (worldToScreen cx cy wx wy).2 = ((wx : ℚ), (wy : ℚ)) ∧
    worldToScreen cx cy (clickToWorld cx cy sx sy).1
        (clickToWorld cx cy sx sy).2 = ((sx : ℚ), (sy : ℚ)) := by
  unfold worldToScreen clickToWorld
  constructor
  · have hx : ((wx : ℚ) - cx + cx) = ((wx : ℚ)) := by ring
    have hy : ((wy : ℚ) - cy + cy) = ((wy : ℚ)) := by ring
    rw [hx, hy, Int.floor_intCast, Int.floor_intCast]
  · have hx : ⌊(sx : ℚ) + (cx : ℚ)⌋ = sx + cx := by
      rw [← Int.cast_add, Int.floor_intCast]
    have hy : ⌊(sy : ℚ) + (cy : ℚ)⌋ = sy + cy := by
      rw [← Int.cast_add, Int.floor_intCast]
    rw [hx, hy]
    simp only [Prod.mk.injEq]
    constructor <;> (push_cast; ring)

def c5Player : PlayerObj :=
  { id := "p1", username := some "Robert", x := 1000, y := 1000,
    facing := some "south", avatar := "a1", animationFrame := none }

def c5JoinState : ClientState :=
  { initialClient 800 600 with worldImage := true }

def c5Msg : ServerMessage :=
  ServerMessage.joinGame true (some "p1") [("p1", c5Player)] [] none

/-- C5: centering sets `camera = playerPos − viewportSize/2` per axis and
the following draw clamps each axis to `[0, worldSize − viewportSize]`
(stated as the code's `max 0 (min · (worldSize − viewportSize))`, with the
interval bounds holding whenever the viewport fits the world); and on the
concrete join scenario — local player `p1` at `(1000, 1000)`, viewport
`800 × 600`, world `2048 × 2048` — the camera ends at `(600, 700)`. -/
theorem c5_centering_formula_and_join_scenario :
    (∀ (s : ClientState) (pid : String) (p : PlayerObj),
      s.myPlayerId = some pid → pid ≠ "" → jsGet s.players pid = some p →
      s.worldImage = true → s.canvasWidth ≤ s.worldWidth →
      s.canvasHeight ≤ s.worldHeight →
      (drawWorld (centerCameraOnMyAvatar s)).cameraX
          = max 0 (min (p.x - s.canvasWidth / 2)
              (s.worldWidth - s.canvasWidth)) ∧
      0 ≤ (drawWorld (centerCameraOnMyAvatar s)).cameraX ∧
      (drawWorld (centerCameraOnMyAvatar s)).cameraX
          ≤ s.worldWidth - s.canvasWidth ∧
      (drawWorld (centerCameraOnMyAvatar s)).cameraY
          = max 0 (min (p.y - s.canvasHeight / 2)
              (s.worldHeight - s.canvasHeight)) ∧
      0 ≤ (drawWorld (centerCameraOnMyAvatar s)).cameraY ∧
      (drawWorld (centerCameraOnMyAvatar s)).cameraY
          ≤ s.worldHeight - s.canvasHeight) ∧
    (handleServerMessage c5JoinState c5Msg).cameraX = 600 ∧
    (handleServerMessage c5JoinState c5Msg).cameraY = 700 := by
  refine ⟨?_, ?_, ?_⟩
  · intro s pid p hmy hpid hp himg hw hh
    have hcenter : centerCameraOnMyAvatar s =
        { s with
          cameraX := p.x - s.canvasWidth / 2,
          cameraY := p.y - s.canvasHeight / 2 } := by
      unfold centerCameraOnMyAvatar
      rw [hmy]
      dsimp only
      rw [if_neg hpid, hp]
    have hx : (drawWorld (centerCameraOnMyAvatar s)).cameraX
        = max 0 (min (p.x - s.canvasWidth / 2)
            (s.worldWidth - s.canvasWidth)) := by
      rw [hcenter]
      simp [drawWorld, himg]
    have hy : (drawWorld (centerCameraOnMyAvatar s)).cameraY
        = max 0 (min (p.y - s.canvasHeight / 2)
            (s.worldHeight - s.canvasHeight)) := by
      rw [hcenter]
      simp [drawWorld, himg]
    refine ⟨hx, ?_, ?_, hy, ?_, ?_⟩
    · rw [hx]; exact le_max_left _ _
    · rw [hx]; exact max_le (sub_nonneg.mpr hw) (min_le_right _ _)
    · rw [hy]; exact le_max_left _ _
    · rw [hy]; exact max_le (sub_nonneg.mpr hh) (min_le_right _ _)
  · show max 0 (min ((1000 : ℚ) - 800 / 2) (2048 - 800)) = 600
    norm_num
  · show max 0 (min ((1000 : ℚ) - 600 / 2) (2048 - 600)) = 700
    norm_num

def c5W : ClientState :=
  { initialClient 800 600 with
    worldImage := true,
    myPlayerId := some "p1",
    players := [("p1", c5Player)] }

theorem c5_witness :
    0 ≤ (drawWorld (centerCameraOnMyAvatar c5W)).cameraX ∧
    (drawWorld (centerCameraOnMyAvatar c5W)).cameraX
      ≤ c5W.worldWidth - c5W.canvasWidth :=
  ⟨(c5_centering_formula_and_join_scenario.1 c5W "p1" c5Player rfl
      (by decide) rfl rfl (by norm_num [c5W, initialClient])
      (by norm_num [c5W, initialClient])).2.1,
   (c5_centering_formula_and_join_scenario.1 c5W "p1" c5Player rfl
      (by decide) rfl rfl (by norm_num [c5W, initialClient])
      (by norm_num [c5W, initialClient])).2.2.1⟩

/-- C6: frame-sequence resolution in `renderAvatar`.  A west (or left)
facing uses the east sequence with the horizontal mirror applied to the
drawn image; any other facing uses its own sequence unmirrored; and a
missing avatar, missing frame sequence, or out-of-range frame index makes
the function skip the sprite (`none`) rather than fail — it is total. -/
theorem c6_facing_resolution_and_skip :
    (∀ (avatars : JsMap AvatarDef) (loaded : JsMap (JsMap (List Frame)))
       (size : ℚ) (p : PlayerObj) (sx sy : ℚ) (a : AvatarDef)
       (imgs : JsMap (List Frame)),
      jsGet avatars p.avatar = some a → jsGet loaded p.avatar = some imgs →
      (p.facing = some "left" ∨ p.facing = some "west") →
      renderAvatar avatars loaded size p sx sy =
        (jsGet imgs "east").bind (fun frames =>
          (frames.get? (p.animationFrame.getD 0)).map (fun img =>
            { image := hflip img, x := sx - size / 2, y := sy - size / 2,
              flipped := true }))) ∧
    (∀ (avatars : JsMap AvatarDef) (loaded : JsMap (JsMap (List Frame)))
       (size : ℚ) (p : PlayerObj) (sx sy : ℚ) (a : AvatarDef)
       (imgs : JsMap (List Frame)) (f : String),
      jsGet avatars p.avatar = some a → jsGet loaded p.avatar = some imgs →
      p.facing = some f → ¬ (f = "left" ∨ f = "west") →
      renderAvatar avatars loaded size p sx sy =
        (jsGet imgs f).bind (fun frames =>
          (frames.get? (p.animationFrame.getD 0)).map (fun img =>
            { image := img, x := sx - size / 2, y := sy - size / 2,
              flipped := false }))) ∧
    (∀ (avatars : JsMap AvatarDef) (loaded : JsMap (JsMap (List Frame)))
       (size : ℚ) (p : PlayerObj) (sx sy : ℚ),
      jsGet avatars p.avatar = none ∨ jsGet loaded p.avatar = none →
      renderAvatar avatars loaded size p sx sy = none) ∧
    (∀ (avatars : JsMap AvatarDef) (loaded : JsMap (JsMap (List Frame)))
       (size : ℚ) (p : PlayerObj) (sx sy : ℚ) (a : AvatarDef)
       (imgs : JsMap (List Frame)),
      jsGet avatars p.avatar = some a → jsGet loaded p.avatar = some imgs →
      (resolveFrames imgs p.facing).1 = none →
      renderAvatar avatars loaded size p sx sy = none) ∧
    (∀ (avatars : JsMap AvatarDef) (loaded : JsMap (JsMap (List Frame)))
       (size : ℚ) (p : PlayerObj) (sx sy : ℚ) (a : AvatarDef)
       (imgs : JsMap (List Frame)) (frames : List Frame),
      jsGet avatars p.avatar = some a → jsGet loaded p.avatar = some imgs →
      (resolveFrames imgs p.facing).1 = some frames →
      frames.get? (p.animationFrame.getD 0) = none →
      renderAvatar avatars loaded size p sx sy = none) := by
  refine ⟨?_, ?_, ?_, ?_, ?_⟩
  · intro avatars loaded size p sx sy a imgs ha hl hface
    have hres : resolveFrames imgs p.facing = (jsGet imgs "east", true) := by
      unfold resolveFrames
      rw [if_pos hface]
    simp only [renderAvatar, ha, hl, hres]
    cases he : jsGet imgs "east" with
    | none => rfl
    | some frames =>
      cases hfr : frames[p.animationFrame.getD 0]? with
      | none => simp [hfr]
      | some img => simp [hfr]
  · intro avatars loaded size p sx sy a imgs f ha hl hface hnw
    have hres : resolveFrames imgs p.facing = (jsGet imgs f, false) := by
      unfold resolveFrames
      rw [hface]
      rw [if_neg (by
        intro hor
        rcases hor with h | h <;>
          exact hnw (by simp [Option.some.injEq] at h; simp [h]))]
    simp only [renderAvatar, ha, hl, hres]
    cases he : jsGet imgs f with
    | none => rfl
    | some frames =>
      cases hfr : frames[p.animationFrame.getD 0]? with
      | none => simp [hfr]
      | some img => simp [hfr]
  · intro avatars loaded size p sx sy h
    unfold renderAvatar
    rcases h with h | h <;> rw [h]
    cases jsGet avatars p.avatar <;> rfl
  · intro avatars loaded size p sx sy a imgs ha hl hres
    simp only [renderAvatar, ha, hl, hres]
  · intro avatars loaded size p sx sy a imgs frames ha hl hres hfr
    simp only [renderAvatar, ha, hl, hres, hfr]

def c6Img : Frame := [[1, 2], [3, 4]]

def c6Avatars : JsMap AvatarDef :=
  [("bear", { name := "bear", frames := [("east", [c6Img])] })]

def c6Loaded : JsMap (JsMap (List Frame)) := [("bear", [("east", [c6Img])])]

def c6P : PlayerObj :=
  { id := "q", username := some "q", x := 0, y := 0, facing := some "west",
    avatar := "bear", animationFrame := none }

theorem c6_witness :
    renderAvatar c6Avatars c6Loaded 32 c6P 0 0 =
      some { image := hflip c6Img, x := 0 - 32 / 2, y := 0 - 32 / 2,
             flipped := true } := by
  have h := c6_facing_resolution_and_skip.1 c6Avatars c6Loaded 32 c6P 0 0
    { name := "bear", frames := [("east", [c6Img])] } [("east", [c6Img])]
    (by decide) (by decide) (Or.inr rfl)
  rw [h]
  rfl

/-- C10: a missing (or zero, the only falsy number that occurs)
animation-frame index falls back to index `0` of the resolved sequence:
when frame `0` exists the sprite is drawn from it, never skipped. -/
theorem c10_falsy_frame_index_uses_frame_zero (avatars : JsMap AvatarDef)
    (loaded : JsMap (JsMap (List Frame))) (size : ℚ) (p : PlayerObj)
    (sx sy : ℚ) (a : AvatarDef) (imgs : JsMap (List Frame))
    (frames : List Frame) (img : Frame)
    (ha : jsGet avatars p.avatar = some a)
    (hl : jsGet loaded p.avatar = some imgs)
    (hf : p.animationFrame = none ∨ p.animationFrame = some 0)
    (hres : (resolveFrames imgs p.facing).1 = some frames)
    (h0 : frames.get? 0 = some img) :
    renderAvatar avatars loaded size p sx sy =
      some { image := if (resolveFrames imgs p.facing).2 then hflip img
                      else img,
             x := sx - size / 2, y := sy - size / 2,
             flipped := (resolveFrames imgs p.facing).2 } := by
  have hidx : p.animationFrame.getD 0 = 0 := by
    rcases hf with h | h <;> rw [h] <;> rfl
  simp only [renderAvatar, ha, hl, hidx, hres, h0]

def c10Img : Frame := [[7, 8], [9, 10]]

def c10Avatars : JsMap AvatarDef :=
  [("owl", { name := "owl", frames := [("north", [c10Img])] })]

def c10Loaded : JsMap (JsMap (List Frame)) := [("owl", [("north", [c10Img])])]

def c10P : PlayerObj :=
  { id := "r", username := some "r", x := 0, y := 0, facing := some "north",
    avatar := "owl", animationFrame := none }

theorem c10_witness :
    renderAvatar c10Avatars c10Loaded 32 c10P 5 6 =
      some { image := c10Img, x := 5 - 32 / 2, y := 6 - 32 / 2,
             flipped := false } := by
  have h := c10_falsy_frame_index_uses_frame_zero c10Avatars c10Loaded 32
    c10P 5 6 { name := "owl", frames := [("north", [c10Img])] }
    [("north", [c10Img])] [c10Img] c10Img (by decide) (by decide)
    (Or.inl rfl) (by decide) (by decide)
  rw [h]
  rfl
